import Mathlib

/-!
Shallow embedding of the uxplay-windows tray supervisor (`src/tray.py`) and
verification of its specification claims.

The embedding models:
* the shell tokenizer used by `ArgumentManager.read_args` (Python `shlex.split`
  with `posix=True`, `whitespace_split=True`, no comment characters);
* the argument-file manager (`ArgumentManager.ensure_exists` / `read_args`)
  over an explicit file-system state;
* the process supervisor (`ServerManager.start` / `stop`) over an explicit
  tracked-process state, with the OS behaviour of the child process
  (liveness at poll time, reaction to terminate) supplied as an oracle;
* the autostart registrar (`AutoStartManager.is_enabled` / `enable` /
  `disable` / `toggle`) over an explicit registry-entry state.

Side effects (logging, popup dialogs, process-control calls, spawn attempts)
are recorded as an event trace so that claims about reporting and about the
command vector handed to the OS can be stated.
-/

namespace Tray

/-- Observable side effects of the tray code: log lines, popup dialogs and
process-control operations, in the order the Python code performs them. -/
inductive Event where
  | logInfo (msg : String)
  | logWarning (msg : String)
  | logError (msg : String)
  | showError (msg : String)
  | showWarning (msg : String)
  | terminate (pid : Nat)
  | waitTimeout (pid : Nat) (secs : Nat)
  | kill (pid : Nat)
  | wait (pid : Nat)
  | spawnAttempt (cmd : List String)
  deriving DecidableEq

/-- Is this event a `show_error` popup? -/
def isShowError : Event → Bool
  | .showError _ => true
  | _ => false

/-- Is this event a `show_warning` popup? -/
def isShowWarning : Event → Bool
  | .showWarning _ => true
  | _ => false

/-! ## Python string helpers -/

/-- Characters stripped by Python `str.strip()` (ASCII whitespace). -/
def pyIsSpace (c : Char) : Bool :=
  c == ' ' || c == '\t' || c == '\n' || c == '\r' || c == '\x0b' || c == '\x0c'

/-- Python `str.strip()`: remove leading and trailing whitespace. -/
def pyStrip (s : String) : String :=
  String.mk (((s.data.dropWhile pyIsSpace).reverse.dropWhile pyIsSpace).reverse)

/-- `isPrefixB n h`: is `n` a prefix of `h`? (Bool-valued, on characters.) -/
def isPrefixB : List Char → List Char → Bool
  | [], _ => true
  | _ :: _, [] => false
  | a :: as, b :: bs => a == b && isPrefixB as bs

/-- `containsSub needle hay`: does `needle` occur in `hay` as a contiguous
substring? This is Python's `needle in hay` on strings. -/
def containsSub : List Char → List Char → Bool
  | needle, [] => isPrefixB needle []
  | needle, c :: t => isPrefixB needle (c :: t) || containsSub needle t

/-- Python `needle in hay` for strings. -/
def strContains (hay needle : String) : Bool :=
  containsSub needle.data hay.data

/-! ## shlex.split (posix mode, whitespace_split)

`shlex.split(text)` builds a `shlex` lexer with `posix=True`,
`whitespace_split=True` and (because `comments=False`) no comment characters,
then collects tokens until end of input. The lexer is a character-at-a-time
state machine with states: skipping whitespace, inside a word, inside a
quote, and after a backslash escape. Backslash escapes are processed outside
quotes and inside double quotes (where only `\` and `"` may be escaped);
inside single quotes nothing is escaped. An unterminated quote raises
`ValueError("No closing quotation")`; a trailing backslash raises
`ValueError("No escaped character")`. -/

/-- shlex whitespace characters (`shlex.whitespace`). -/
def shWhitespace (c : Char) : Bool :=
  c == ' ' || c == '\t' || c == '\r' || c == '\n'

/-- shlex quote characters (`shlex.quotes`). -/
def shQuote (c : Char) : Bool :=
  c == '\'' || c == '"'

/-- Where a backslash escape was entered from: within an unquoted word
(carrying whether the current token was already quoted), or within a
double-quoted section. -/
inductive EscSrc where
  | fromWord (quoted : Bool)
  | fromDQuote
  deriving DecidableEq

/-- Lexer state of `shlex.read_token`: between tokens, inside a word
(accumulated characters plus the `quoted` flag), inside a quote, or right
after an escape character. -/
inductive ShState where
  | space
  | word (tok : List Char) (quoted : Bool)
  | inQuote (qc : Char) (tok : List Char)
  | esc (src : EscSrc) (tok : List Char)
  deriving DecidableEq

/-- The `shlex` token loop: one step per input character, collecting emitted
tokens into `acc` (reversed). Mirrors `shlex.read_token` iterated by
`shlex.split`. -/
def shlexRun : List Char → ShState → List String → Except String (List String)
  | [], .space, acc => .ok acc.reverse
  | [], .word tok quoted, acc =>
      if tok.isEmpty && !quoted then .ok acc.reverse
      else .ok (String.mk tok :: acc).reverse
  | [], .inQuote _ _, _ => .error "No closing quotation"
  | [], .esc _ _, _ => .error "No escaped character"
  | c :: rest, .space, acc =>
      if shWhitespace c then shlexRun rest .space acc
      else if c == '\\' then shlexRun rest (.esc (.fromWord false) []) acc
      else if shQuote c then shlexRun rest (.inQuote c []) acc
      else shlexRun rest (.word [c] false) acc
  | c :: rest, .word tok quoted, acc =>
      if shWhitespace c then
        if tok.isEmpty && !quoted then shlexRun rest .space acc
        else shlexRun rest .space (String.mk tok :: acc)
      else if shQuote c then shlexRun rest (.inQuote c tok) acc
      else if c == '\\' then shlexRun rest (.esc (.fromWord quoted) tok) acc
      else shlexRun rest (.word (tok ++ [c]) quoted) acc
  | c :: rest, .inQuote qc tok, acc =>
      if c == qc then shlexRun rest (.word tok true) acc
      else if qc == '"' && c == '\\' then shlexRun rest (.esc .fromDQuote tok) acc
      else shlexRun rest (.inQuote qc (tok ++ [c])) acc
  | c :: rest, .esc src tok, acc =>
      match src with
      | .fromWord quoted => shlexRun rest (.word (tok ++ [c]) quoted) acc
      | .fromDQuote =>
          if c != '\\' && c != '"' then
            shlexRun rest (.inQuote '"' (tok ++ ['\\', c])) acc
          else shlexRun rest (.inQuote '"' (tok ++ [c])) acc

/-- Python `shlex.split(s)` in posix mode: the token list, or the
`ValueError` message on a lexing error. -/
def shlexSplit (s : String) : Except String (List String) :=
  shlexRun s.data .space []

/-! ## File-system state for the arguments file

`ArgumentManager` touches exactly one path (`arguments.txt`) and its parent
directory, so the relevant file-system state is whether the parent directory
exists and whether the file exists and with which content. -/

/-- File-system state visible to `ArgumentManager`: the arguments file's
parent directory, and the arguments file itself (`none` = absent). -/
structure FS where
  parentDirExists : Bool
  fileContent : Option String
  deriving DecidableEq

/-- `Path.exists()` for the arguments file. -/
def FS.pathExists (fs : FS) : Bool := fs.fileContent.isSome

/-- `path.parent.mkdir(parents=True, exist_ok=True)`. -/
def FS.mkdirParents (fs : FS) : FS := { fs with parentDirExists := true }

/-- `path.write_text(s)`. -/
def FS.writeText (fs : FS) (s : String) : FS := { fs with fileContent := some s }

namespace ArgumentManager

/-- `ArgumentManager.ensure_exists`: make the parent directory, then create
an empty file only if the path does not exist. Returns the new file-system
state and the emitted events. -/
def ensure_exists (fs : FS) : FS × List Event :=
  let fs1 := FS.mkdirParents fs
  if fs1.pathExists then
    (fs1, [.logInfo "Ensuring arguments file"])
  else
    (fs1.writeText "",
     [.logInfo "Ensuring arguments file", .logInfo "Created empty arguments.txt"])

/-- Result of `ArgumentManager.read_args`: the (unchanged) file-system
state, the token list returned, and the emitted events. -/
structure ReadResult where
  fs : FS
  tokens : List String
  events : List Event
  deriving DecidableEq

/-- `ArgumentManager.read_args`: empty list if the file is absent
(`path.exists()` false) or its stripped content is empty; otherwise
`shlex.split` of the stripped content, with a `ValueError` reported
(logged plus `show_error`) and degraded to the empty list. The function is
total: no exception propagates to the caller. -/
def read_args (fs : FS) : ReadResult :=
  match fs.fileContent with
  | none => ⟨fs, [], [.logWarning "arguments.txt missing, no custom args"]⟩
  | some content =>
    let text := pyStrip content
    if text = "" then ⟨fs, [], []⟩
    else
      match shlexSplit text with
      | .ok toks => ⟨fs, toks, []⟩
      | .error e =>
          ⟨fs, [],
           [.logError ("Could not parse arguments.txt:\n" ++ e),
            .showError ("Could not parse arguments.txt:\n" ++ e)]⟩

end ArgumentManager

/-! ## Process supervisor

`ServerManager` owns `self.process : Optional[Popen]`. The OS-dependent
behaviour of a tracked child process is an oracle carried on the process
value: whether `poll()` reports it alive at the next check, and how it
reacts to the terminate/wait sequence in `stop()` (exits within the grace
period, ignores terminate until the 3-second wait times out, or the
sequence raises some other exception). The outcome of `subprocess.Popen`
in `start()` is likewise passed in as an oracle. -/

/-- How a live child process reacts to `stop()`'s terminate/wait sequence. -/
inductive TermOutcome where
  | graceful
  | ignoresTerm
  | raises (msg : String)
  deriving DecidableEq

/-- A tracked child process: its pid, whether `poll()` reports it alive at
the next check, and its reaction to the termination sequence. -/
structure Proc where
  pid : Nat
  alive : Bool
  termOutcome : TermOutcome
  deriving DecidableEq

/-- `self.process and self.process.poll() is None`: a process is tracked and
it is alive at this check. -/
def procAlive : Option Proc → Bool
  | none => false
  | some p => p.alive

/-- Outcome of the `subprocess.Popen` call: a new process, or an exception. -/
inductive SpawnOutcome where
  | ok (p : Proc)
  | raises (msg : String)
  deriving DecidableEq

/-- `ServerManager` state: the executable path and whether it exists, the
argument file's file-system state, and the tracked process (if any). -/
structure ServerManager where
  exePath : String
  exeExists : Bool
  fs : FS
  process : Option Proc
  deriving DecidableEq

/-- The spawn phase of `ServerManager.start` (after the already-running
check): abort if the executable is missing, otherwise build
`[exe] + read_args()` and attempt the spawn. -/
def ServerManager.startSpawn (m : ServerManager) (out : SpawnOutcome) :
    ServerManager × List Event :=
  if m.exeExists = false then
    (m, [.logError ("uxplay.exe not found at:\n" ++ m.exePath),
         .showError ("uxplay.exe not found at:\n" ++ m.exePath)])
  else
    let r := ArgumentManager.read_args m.fs
    let cmd := m.exePath :: r.tokens
    match out with
    | .ok p =>
        ({ m with fs := r.fs, process := some p },
         r.events ++
           [.logInfo "Starting UxPlay", .spawnAttempt cmd,
            .logInfo ("Started UxPlay (PID " ++ toString p.pid ++ ")")])
    | .raises msg =>
        ({ m with fs := r.fs },
         r.events ++
           [.logInfo "Starting UxPlay", .spawnAttempt cmd,
            .logError "Failed to launch UxPlay",
            .showError ("Failed to launch UxPlay:\n" ++ msg)])

/-- `ServerManager.start`: warn and return unchanged if a tracked process is
alive (liveness re-checked via `poll()`); otherwise proceed to the spawn
phase. On a spawn exception the `self.process = Popen(...)` assignment never
happens, so the previous value of `self.process` is retained. -/
def ServerManager.start (m : ServerManager) (out : SpawnOutcome) :
    ServerManager × List Event :=
  match m.process with
  | some p =>
      if p.alive then
        (m, [.logInfo ("UxPlay server already running (PID " ++ toString p.pid ++ ")"),
             .showWarning ("UxPlay server is already running. PID: " ++ toString p.pid)])
      else m.startSpawn out
  | none => m.startSpawn out

/-- `ServerManager.stop`: early return (before the `try/finally`, so
`self.process` is NOT cleared) when no process is tracked or the tracked one
has already exited; otherwise terminate, wait up to 3 seconds, escalate to
kill-then-wait on timeout, report any other exception — and clear
`self.process` in the `finally` block on all three of those paths. -/
def ServerManager.stop (m : ServerManager) : ServerManager × List Event :=
  match m.process with
  | none => (m, [.logInfo "UxPlay server not running."])
  | some p =>
      if p.alive then
        match p.termOutcome with
        | .graceful =>
            ({ m with process := none },
             [.logInfo ("Stopping UxPlay (PID " ++ toString p.pid ++ ")..."),
              .terminate p.pid, .waitTimeout p.pid 3,
              .logInfo "UxPlay stopped cleanly."])
        | .ignoresTerm =>
            ({ m with process := none },
             [.logInfo ("Stopping UxPlay (PID " ++ toString p.pid ++ ")..."),
              .terminate p.pid, .waitTimeout p.pid 3,
              .logWarning "Did not terminate in time; killing it.",
              .kill p.pid, .wait p.pid])
        | .raises msg =>
            ({ m with process := none },
             [.logInfo ("Stopping UxPlay (PID " ++ toString p.pid ++ ")..."),
              .logError "Error stopping UxPlay",
              .showError ("Error stopping UxPlay:\n" ++ msg)])
      else (m, [.logInfo "UxPlay server not running."])

/-! ## Autostart registrar

`AutoStartManager` reads and writes one value, keyed by the application
name, under the per-user Run key. The state is that entry (`none` = the
value is absent, raising `FileNotFoundError` on read). A read can also fail
for any other reason; that transient outcome is modelled in `ReadOutcome`. -/

/-- Outcome of `winreg.QueryValueEx` for the app-name value: the stored
string, `FileNotFoundError` (entry absent), or any other exception. -/
inductive ReadOutcome where
  | found (v : String)
  | absent
  | failure
  deriving DecidableEq

namespace AutoStartManager

/-- `AutoStartManager.is_enabled`: true iff the value was read and contains
`self.exe_cmd` as a substring; `FileNotFoundError` and every other
exception yield false. Total: never raises. -/
def is_enabled (exeCmd : String) (r : ReadOutcome) : Bool :=
  match r with
  | .found v => strContains v exeCmd
  | .absent => false
  | .failure => false

/-- A successful registry read of the entry state. -/
def readEntry : Option String → ReadOutcome
  | none => .absent
  | some v => .found v

/-- `AutoStartManager.enable`: `SetValueEx` stores `self.exe_cmd` under the
app name, overwriting any previous value. -/
def enable (exeCmd : String) (_reg : Option String) : Option String :=
  some exeCmd

/-- `AutoStartManager.disable`: `DeleteValue` removes the entry; deleting an
absent entry (`FileNotFoundError`) is swallowed. -/
def disable (_reg : Option String) : Option String :=
  none

/-- `AutoStartManager.toggle`: disable if currently enabled, else enable. -/
def toggle (exeCmd : String) (reg : Option String) : Option String :=
  if is_enabled exeCmd (readEntry reg) then disable reg else enable exeCmd reg

end AutoStartManager

/-! ## Helper lemmas -/

/-- Every character list is a Boolean prefix of itself. -/
lemma isPrefixB_refl : ∀ l : List Char, isPrefixB l l = true
  | [] => rfl
  | a :: as => by simp [isPrefixB, isPrefixB_refl as]

/-- Every character list contains itself as a substring. -/
lemma containsSub_self : ∀ l : List Char, containsSub l l = true
  | [] => rfl
  | c :: t => by simp [containsSub, isPrefixB_refl]

/-- Every string contains itself as a substring. -/
lemma strContains_self (s : String) : strContains s s = true :=
  containsSub_self s.data

/-- In the already-running branch (tracked process alive), `start` leaves the
state unchanged and emits exactly a log line and a warning popup. -/
lemma start_alive_eq (m : ServerManager) (p : Proc) (out : SpawnOutcome)
    (hp : m.process = some p) (halive : p.alive = true) :
    m.start out =
      (m, [.logInfo ("UxPlay server already running (PID " ++ toString p.pid ++ ")"),
           .showWarning ("UxPlay server is already running. PID: " ++ toString p.pid)]) := by
  simp [ServerManager.start, hp, halive]

/-- When no tracked process is alive, `start` delegates to the spawn phase. -/
lemma start_not_alive_eq (m : ServerManager) (out : SpawnOutcome)
    (h1 : procAlive m.process = false) :
    m.start out = m.startSpawn out := by
  cases hm : m.process with
  | none => simp [ServerManager.start, hm]
  | some p =>
      rw [hm] at h1
      simp only [procAlive] at h1
      simp [ServerManager.start, hm, h1]

/-- Successful spawn: the new process is recorded, the command vector is the
executable path prepended to the freshly-read tokens. -/
lemma startSpawn_ok_eq (m : ServerManager) (p : Proc) (h2 : m.exeExists = true) :
    m.startSpawn (.ok p) =
      ({ m with fs := (ArgumentManager.read_args m.fs).fs, process := some p },
       (ArgumentManager.read_args m.fs).events ++
         [.logInfo "Starting UxPlay",
          .spawnAttempt (m.exePath :: (ArgumentManager.read_args m.fs).tokens),
          .logInfo ("Started UxPlay (PID " ++ toString p.pid ++ ")")]) := by
  simp [ServerManager.startSpawn, h2]

/-- Failed spawn: the `self.process` assignment never happens, so the
previous process field is kept; the error is logged and shown. -/
lemma startSpawn_raises_eq (m : ServerManager) (msg : String) (h2 : m.exeExists = true) :
    m.startSpawn (.raises msg) =
      ({ m with fs := (ArgumentManager.read_args m.fs).fs },
       (ArgumentManager.read_args m.fs).events ++
         [.logInfo "Starting UxPlay",
          .spawnAttempt (m.exePath :: (ArgumentManager.read_args m.fs).tokens),
          .logError "Failed to launch UxPlay",
          .showError ("Failed to launch UxPlay:\n" ++ msg)]) := by
  simp [ServerManager.startSpawn, h2]

/-! ## Claims -/

/-- Claim C1, counterexample: with a tracked process that has already exited
(`poll()` not `None`), `stop()` returns through the early-return path that
precedes the `try/finally`, so the tracked process reference is NOT cleared:
a process is still tracked after `stop()` returns. -/
theorem stop_exited_keeps_reference_cx :
    (ServerManager.stop
      { exePath := "uxplay.exe", exeExists := true,
        fs := { parentDirExists := true, fileContent := some "" },
        process := some { pid := 1, alive := false, termOutcome := .graceful } }).1.process
      ≠ none := by
  decide

/-- Claim C1, amended: after `stop()` returns, no LIVE process is tracked.
If nothing was tracked, nothing is tracked afterwards (and the state is
unchanged); if the tracked process is alive at call time, the reference is
cleared on every path (graceful, force-kill, exception); but if the tracked
process has already exited, `stop()` is a no-op and the stale reference is
retained. -/
theorem stop_tracked_state (m : ServerManager) :
    (m.process = none → (ServerManager.stop m).1 = m ∧ (ServerManager.stop m).1.process = none) ∧
    (∀ p, m.process = some p → p.alive = true → (ServerManager.stop m).1.process = none) ∧
    (∀ p, m.process = some p → p.alive = false → (ServerManager.stop m).1 = m) := by
  refine ⟨?_, ?_, ?_⟩
  · intro h
    simp [ServerManager.stop, h]
  · intro p hp halive
    simp only [ServerManager.stop, hp, halive, if_true]
    cases p.termOutcome <;> simp
  · intro p hp hdead
    simp [ServerManager.stop, hp, hdead]

/-- Witness for the amended C1 theorem at a concrete live process. -/
theorem stop_tracked_state_witness :
    (ServerManager.stop
      { exePath := "uxplay.exe", exeExists := true,
        fs := { parentDirExists := true, fileContent := some "" },
        process := some { pid := 2, alive := true, termOutcome := .ignoresTerm } }).1.process
      = none :=
  (stop_tracked_state _).2.1 { pid := 2, alive := true, termOutcome := .ignoresTerm } rfl rfl

/-- Claim C2, counterexample: when a stale exited-process reference is still
stored and the spawn raises, `start()` returns with that stale reference
still tracked — the supervisor state is not reset to "not tracked". -/
theorem start_failure_keeps_stale_cx :
    (ServerManager.start
      { exePath := "uxplay.exe", exeExists := true,
        fs := { parentDirExists := true, fileContent := some "" },
        process := some { pid := 7, alive := false, termOutcome := .graceful } }
      (.raises "boom")).1.process ≠ none := by
  decide

/-- Claim C2, amended: a spawn failure inside `start()` is reported via an
error popup and stores no new process reference: the process field after the
call equals the field before the call. In particular, when no process was
tracked before the call, none is tracked after; a stale exited-process
reference from before the call is retained unchanged. -/
theorem start_spawn_failure_state (m : ServerManager) (msg : String)
    (h1 : procAlive m.process = false) (h2 : m.exeExists = true) :
    (m.start (.raises msg)).1.process = m.process ∧
    (m.process = none → (m.start (.raises msg)).1.process = none) ∧
    (m.start (.raises msg)).2.any isShowError = true := by
  rw [start_not_alive_eq m _ h1, startSpawn_raises_eq m msg h2]
  refine ⟨rfl, fun h => h ▸ rfl, ?_⟩
  simp [isShowError]

/-- Witness for the amended C2 theorem at a concrete spawn failure. -/
theorem start_spawn_failure_state_witness :
    (ServerManager.start
      { exePath := "uxplay.exe", exeExists := true,
        fs := { parentDirExists := true, fileContent := some "" },
        process := none }
      (.raises "boom")).2.any isShowError = true :=
  (start_spawn_failure_state
    { exePath := "uxplay.exe", exeExists := true,
      fs := { parentDirExists := true, fileContent := some "" },
      process := none } "boom" rfl rfl).2.2

/-- Claim C3: on a tracked live process, `stop()` terminates, waits with a
grace period of exactly 3 time units, and on timeout escalates to kill
followed by an unconditional wait; the tracked reference is cleared in both
the graceful and the forceful path. -/
theorem stop_graceful_then_forceful (m : ServerManager) (p : Proc)
    (hp : m.process = some p) (halive : p.alive = true) :
    (ServerManager.stop m).1.process = none ∧
    (p.termOutcome = .graceful →
      (ServerManager.stop m).2 =
        [.logInfo ("Stopping UxPlay (PID " ++ toString p.pid ++ ")..."),
         .terminate p.pid, .waitTimeout p.pid 3,
         .logInfo "UxPlay stopped cleanly."]) ∧
    (p.termOutcome = .ignoresTerm →
      (ServerManager.stop m).2 =
        [.logInfo ("Stopping UxPlay (PID " ++ toString p.pid ++ ")..."),
         .terminate p.pid, .waitTimeout p.pid 3,
         .logWarning "Did not terminate in time; killing it.",
         .kill p.pid, .wait p.pid]) := by
  simp only [ServerManager.stop, hp, halive, if_true]
  cases ht : p.termOutcome <;> simp [ht]

/-- Witness for C3 at a concrete process that ignores graceful termination. -/
theorem stop_graceful_then_forceful_witness :
    (ServerManager.stop
      { exePath := "x", exeExists := true,
        fs := { parentDirExists := true, fileContent := none },
        process := some { pid := 5, alive := true, termOutcome := .ignoresTerm } }).2
      = [.logInfo ("Stopping UxPlay (PID " ++ toString (5 : Nat) ++ ")..."),
         .terminate 5, .waitTimeout 5 3,
         .logWarning "Did not terminate in time; killing it.",
         .kill 5, .wait 5] :=
  (stop_graceful_then_forceful _
    { pid := 5, alive := true, termOutcome := .ignoresTerm } rfl rfl).2.2 rfl

/-- Claim C4: `read_args` is a total function (the embedding returns a value
for every file state, so no exception propagates) with: empty token list
when the file is absent; empty token list when the stripped content is
empty; on a tokenization error, an error popup and the empty token list;
otherwise exactly the shell-token sequence of the stripped content. -/
theorem read_args_cases (fs : FS) :
    (fs.fileContent = none → (ArgumentManager.read_args fs).tokens = []) ∧
    (∀ c, fs.fileContent = some c → pyStrip c = "" →
      (ArgumentManager.read_args fs).tokens = []) ∧
    (∀ c e, fs.fileContent = some c → shlexSplit (pyStrip c) = .error e →
      (ArgumentManager.read_args fs).tokens = [] ∧
      (ArgumentManager.read_args fs).events.any isShowError = true) ∧
    (∀ c toks, fs.fileContent = some c → pyStrip c ≠ "" →
      shlexSplit (pyStrip c) = .ok toks →
      (ArgumentManager.read_args fs).tokens = toks) := by
  refine ⟨?_, ?_, ?_, ?_⟩
  · intro h
    simp [ArgumentManager.read_args, h]
  · intro c hc hs
    simp [ArgumentManager.read_args, hc, hs]
  · intro c e hc herr
    by_cases hs : pyStrip c = ""
    · rw [hs] at herr
      have hok : shlexSplit "" = .ok [] := rfl
      rw [hok] at herr
      simp at herr
    · simp only [ArgumentManager.read_args, hc]
      rw [if_neg hs, herr]
      exact ⟨rfl, by simp [isShowError]⟩
  · intro c toks hc hs hok
    simp only [ArgumentManager.read_args, hc]
    rw [if_neg hs, hok]

/-- Witness for C4 at a concrete malformed argument file (unclosed quote). -/
theorem read_args_cases_witness :
    (ArgumentManager.read_args
      { parentDirExists := true, fileContent := some "-p \"unclosed" }).tokens = [] ∧
    (ArgumentManager.read_args
      { parentDirExists := true, fileContent := some "-p \"unclosed" }).events.any
        isShowError = true :=
  (read_args_cases _).2.2.1 "-p \"unclosed" "No closing quotation" rfl rfl

/-- Claim C5: `is_enabled` is true iff the registry value was read
successfully and contains the expected launch command as a substring; the
absent entry and any other read failure both yield false (and the function
is total, so nothing is raised). -/
theorem is_enabled_characterisation (cmd : String) (r : ReadOutcome) :
    (AutoStartManager.is_enabled cmd r = true ↔
      ∃ v, r = .found v ∧ strContains v cmd = true) ∧
    AutoStartManager.is_enabled cmd .absent = false ∧
    AutoStartManager.is_enabled cmd .failure = false := by
  refine ⟨?_, rfl, rfl⟩
  cases r with
  | found v => simp [AutoStartManager.is_enabled]
  | absent => simp [AutoStartManager.is_enabled]
  | failure => simp [AutoStartManager.is_enabled]

/-- Claim C6: whenever `start()` proceeds to spawn (no tracked live process,
executable present), the attempted command vector is the executable path
prepended to the tokens freshly read from the argument file; for the
concrete file content `-fps 30 -p "My Room"` those tokens are
`["-fps", "30", "-p", "My Room"]`. -/
theorem start_cmd_vector (m : ServerManager) (out : SpawnOutcome)
    (h1 : procAlive m.process = false) (h2 : m.exeExists = true) :
    Event.spawnAttempt (m.exePath :: (ArgumentManager.read_args m.fs).tokens)
      ∈ (m.start out).2 ∧
    (m.fs.fileContent = some "-fps 30 -p \"My Room\"" →
      (ArgumentManager.read_args m.fs).tokens = ["-fps", "30", "-p", "My Room"]) := by
  constructor
  · rw [start_not_alive_eq m out h1]
    cases out with
    | ok p => rw [startSpawn_ok_eq m p h2]; simp
    | raises msg => rw [startSpawn_raises_eq m msg h2]; simp
  · intro h
    rcases m with ⟨exePath, exeExists, ⟨d, fc⟩, proc⟩
    simp only at h
    subst h
    rfl

/-- Witness for C6: a concrete spawn from the example argument file. -/
theorem start_cmd_vector_witness :
    (ArgumentManager.read_args
      { parentDirExists := true,
        fileContent := some "-fps 30 -p \"My Room\"" }).tokens
      = ["-fps", "30", "-p", "My Room"] :=
  (start_cmd_vector
    { exePath := "uxplay.exe", exeExists := true,
      fs := { parentDirExists := true, fileContent := some "-fps 30 -p \"My Room\"" },
      process := none }
    (.ok { pid := 1, alive := true, termOutcome := .graceful }) rfl rfl).2 rfl

/-- Claim C7: if the tracked process is alive at call time, `start()` leaves
the supervisor state unchanged and shows a warning; consequently two
consecutive `start()` calls whose first spawn succeeds (and whose process is
still alive at the second call) leave exactly that one process tracked and
warn on the second call. -/
theorem start_noop_when_alive (m : ServerManager) (p : Proc) (out out₂ : SpawnOutcome)
    (hp : m.process = some p) (halive : p.alive = true) :
    ((m.start out).1 = m ∧ (m.start out).2.any isShowWarning = true) ∧
    (∀ (m₀ : ServerManager) (q : Proc), procAlive m₀.process = false →
      m₀.exeExists = true → q.alive = true →
      (((m₀.start (.ok q)).1.start out₂).1.process = some q ∧
       ((m₀.start (.ok q)).1.start out₂).2.any isShowWarning = true)) := by
  constructor
  · rw [start_alive_eq m p out hp halive]
    exact ⟨rfl, by simp [isShowWarning]⟩
  · intro m₀ q h1 h2 hq
    rw [start_not_alive_eq m₀ _ h1, startSpawn_ok_eq m₀ q h2]
    have hmem :
        ({ m₀ with fs := (ArgumentManager.read_args m₀.fs).fs, process := some q } :
          ServerManager).process = some q := rfl
    rw [start_alive_eq _ q out₂ hmem hq]
    exact ⟨rfl, by simp [isShowWarning]⟩

/-- Witness for C7: concrete double `start()` with a successful first spawn. -/
theorem start_noop_when_alive_witness :
    (((ServerManager.start
        { exePath := "uxplay.exe", exeExists := true,
          fs := { parentDirExists := true, fileContent := some "" },
          process := none }
        (.ok { pid := 9, alive := true, termOutcome := .graceful })).1.start
          (.ok { pid := 10, alive := true, termOutcome := .graceful })).1.process
      = some { pid := 9, alive := true, termOutcome := .graceful }) ∧
    ((ServerManager.start
        { exePath := "uxplay.exe", exeExists := true,
          fs := { parentDirExists := true, fileContent := some "" },
          process := none }
        (.ok { pid := 9, alive := true, termOutcome := .graceful })).1.start
          (.ok { pid := 10, alive := true, termOutcome := .graceful })).2.any
        isShowWarning = true :=
  (start_noop_when_alive
    { exePath := "uxplay.exe", exeExists := true,
      fs := { parentDirExists := true, fileContent := some "" },
      process := some { pid := 1, alive := true, termOutcome := .graceful } }
    { pid := 1, alive := true, termOutcome := .graceful }
    (.ok { pid := 9, alive := true, termOutcome := .graceful })
    (.ok { pid := 10, alive := true, termOutcome := .graceful })
    rfl rfl).2
    { exePath := "uxplay.exe", exeExists := true,
      fs := { parentDirExists := true, fileContent := some "" },
      process := none }
    { pid := 9, alive := true, termOutcome := .graceful }
    rfl rfl rfl

/-- Claim C8: `toggle` inverts the enabled state from any registry-entry
state: after `enable` then `toggle` the state is disabled, and after
`disable` then `toggle` the state is enabled. -/
theorem toggle_involution (cmd : String) (reg : Option String) :
    AutoStartManager.is_enabled cmd
      (AutoStartManager.readEntry
        (AutoStartManager.toggle cmd (AutoStartManager.enable cmd reg))) = false ∧
    AutoStartManager.is_enabled cmd
      (AutoStartManager.readEntry
        (AutoStartManager.toggle cmd (AutoStartManager.disable reg))) = true := by
  constructor
  · simp [AutoStartManager.toggle, AutoStartManager.enable, AutoStartManager.disable,
          AutoStartManager.readEntry, AutoStartManager.is_enabled, strContains_self]
  · simp [AutoStartManager.toggle, AutoStartManager.enable, AutoStartManager.disable,
          AutoStartManager.readEntry, AutoStartManager.is_enabled, strContains_self]

/-- Claim C9: `ensure_exists` creates the parent directory and an empty file
only when the file is absent, never overwrites an existing file, and is
idempotent: a second call leaves the state of the first call unchanged. -/
theorem ensure_exists_idempotent (fs : FS) :
    (ArgumentManager.ensure_exists (ArgumentManager.ensure_exists fs).1).1
      = (ArgumentManager.ensure_exists fs).1 ∧
    (∀ c, fs.fileContent = some c →
      (ArgumentManager.ensure_exists fs).1.fileContent = some c) ∧
    (fs.fileContent = none →
      (ArgumentManager.ensure_exists fs).1
        = { parentDirExists := true, fileContent := some "" }) := by
  rcases fs with ⟨d, fc⟩
  cases fc with
  | none =>
      refine ⟨rfl, ?_, fun _ => rfl⟩
      intro c hc
      simp at hc
  | some c =>
      refine ⟨rfl, ?_, ?_⟩
      · intro c2 hc
        simp only at hc
        rw [← hc]
        rfl
      · intro h
        simp at h

/-- Witness for C9: an existing non-empty file is not overwritten. -/
theorem ensure_exists_idempotent_witness :
    (ArgumentManager.ensure_exists
      { parentDirExists := false, fileContent := some "xyz" }).1.fileContent
      = some "xyz" :=
  (ensure_exists_idempotent
    { parentDirExists := false, fileContent := some "xyz" }).2.1 "xyz" rfl

/-- Claim C10: `read_args` never mutates the file system: the file-system
state after the call equals the state before it; in particular an absent
file stays absent (no file is created) and the empty token list is
returned. -/
theorem read_args_frame (fs : FS) :
    (ArgumentManager.read_args fs).fs = fs ∧
    (fs.fileContent = none →
      (ArgumentManager.read_args fs).fs.fileContent = none ∧
      (ArgumentManager.read_args fs).tokens = []) := by
  rcases fs with ⟨d, fc⟩
  cases fc with
  | none => exact ⟨rfl, fun _ => ⟨rfl, rfl⟩⟩
  | some c =>
      refine ⟨?_, ?_⟩
      · show (ArgumentManager.read_args ⟨d, some c⟩).fs = ⟨d, some c⟩
        unfold ArgumentManager.read_args
        dsimp only
        split
        · rfl
        · split <;> rfl
      · intro h
        simp at h

/-- Witness for C10 at a concrete absent file. -/
theorem read_args_frame_witness :
    (ArgumentManager.read_args
      { parentDirExists := true, fileContent := none }).fs.fileContent = none ∧
    (ArgumentManager.read_args
      { parentDirExists := true, fileContent := none }).tokens = [] :=
  (read_args_frame { parentDirExists := true, fileContent := none }).2 rfl

end Tray
